import Mathlib

/-!
Shallow embedding of the circuit breaker in `src/main.go`
(repository `ansakharov/educational_circuit_breaker`).

Modelling conventions:
* Go `time.Time` / `time.Duration` are modelled as `Int` timestamps; `time.Since(t)`
  at the current instant `now` is `now - t`, and `time.Now()` is `now`.  Each `Call`
  receives the instant `now` at which it happens.
* The Go `float64` fields and the ratio `float64(failureCount)/float64(recordLength)`
  are modelled over `ℚ`; none of the properties below exercises rounding.
* The protected operation `service func() error` is modelled by its outcome, an
  `Option String` (`none` = nil error, `some msg` = the error it returns); the
  returned Go `error` of `Call` is likewise an `Option String`.  `Call` additionally
  reports whether the service was invoked, which in Go is observable by counting
  invocations inside the closure.
* The `sync.Mutex` is dropped: each Go method that locks the mutex is a pure
  function on the breaker state, and a `Call` is the sequential composition the Go
  code performs.
-/

inductive Status where
  | CLOSED
  | OPEN
  | HALFOPEN
deriving DecidableEq, Repr

structure CircuitBreaker where
  state : Status
  recordLength : Nat
  timeout : Int
  lastAttemptedAt : Int
  percentile : ℚ
  buffer : List Bool
  pos : Nat
  recoveryRequests : Nat
  successCount : Nat
deriving DecidableEq, Repr

/-- `NewCircuitBreaker` from `src/main.go` lines 40-51: no validation, state = CLOSED,
`make([]bool, recordLength)` is a list of `recordLength` entries `false`. -/
def NewCircuitBreaker (recordLength : Nat) (timeout : Int) (percentile : ℚ)
    (recoveryRequests : Nat) : CircuitBreaker :=
  { state := Status.CLOSED
    recordLength := recordLength
    timeout := timeout
    lastAttemptedAt := 0
    percentile := percentile
    buffer := List.replicate recordLength false
    pos := 0
    recoveryRequests := recoveryRequests
    successCount := 0 }

/-- The loop of `setActualState`'s CLOSED branch: number of `true` entries in the buffer. -/
def failureCount (buffer : List Bool) : Nat :=
  (buffer.filter id).length

/-- `float64(failureCount)/float64(c.recordLength)`, over `ℚ`.  Written with
`Rat.divInt` so that it evaluates by kernel reduction; `failureRatio_eq_div`
below shows it is exactly the cast-and-divide the Go source performs. -/
def failureRatio (c : CircuitBreaker) : ℚ :=
  Rat.divInt (failureCount c.buffer : Int) (c.recordLength : Int)

theorem failureRatio_eq_div (c : CircuitBreaker) :
    failureRatio c = (failureCount c.buffer : ℚ) / (c.recordLength : ℚ) := by
  simp [failureRatio, Rat.divInt_eq_div]

/-- `setActualState` from `src/main.go` lines 77-113 at instant `now`; the Go
`switch c.state` is written as a chain of equality tests. -/
def setActualState (c : CircuitBreaker) (now : Int) : CircuitBreaker :=
  if c.state = Status.OPEN then
    if now - c.lastAttemptedAt > c.timeout then
      { c with state := Status.HALFOPEN }
    else c
  else if c.state = Status.HALFOPEN then
    if c.successCount > c.recoveryRequests then
      { c with state := Status.CLOSED
               buffer := List.replicate c.recordLength false
               pos := 0
               successCount := 0 }
    else c
  else if c.state = Status.CLOSED then
    if failureRatio c ≥ c.percentile then
      { c with state := Status.OPEN, lastAttemptedAt := now }
    else c
  else c

/-- `getState` from `src/main.go` lines 71-75. -/
def getState (c : CircuitBreaker) : Status :=
  c.state

/-- `onSuccess` from `src/main.go` lines 115-125. -/
def onSuccess (c : CircuitBreaker) : CircuitBreaker :=
  let c1 := { c with buffer := c.buffer.set c.pos false
                     pos := (c.pos + 1) % c.recordLength }
  if c1.state = Status.HALFOPEN then
    { c1 with successCount := c1.successCount + 1 }
  else c1

/-- `onError` from `src/main.go` lines 127-142 at instant `now`. -/
def onError (c : CircuitBreaker) (now : Int) : CircuitBreaker :=
  let c1 := { c with buffer := c.buffer.set c.pos true
                     pos := (c.pos + 1) % c.recordLength }
  let c2 := if c1.state = Status.HALFOPEN then
              { c1 with state := Status.OPEN, successCount := 0 }
            else c1
  { c2 with lastAttemptedAt := now, successCount := 0 }

/-- Result of one `Call`: the updated breaker, the returned `error`
(`none` = nil), and whether the protected service was invoked. -/
structure CallOutput where
  breaker : CircuitBreaker
  result : Option String
  invoked : Bool
deriving DecidableEq, Repr

/-- `Call` from `src/main.go` lines 53-69 at instant `now`, where `service` is the
outcome the protected operation would produce if invoked. -/
def Call (c : CircuitBreaker) (now : Int) (service : Option String) : CallOutput :=
  let c1 := setActualState c now
  if getState c1 = Status.OPEN then
    { breaker := c1, result := some "CB IS OPEN", invoked := false }
  else
    match service with
    | some e => { breaker := onError c1 now, result := some e, invoked := true }
    | none => { breaker := onSuccess c1, result := none, invoked := true }

/-- Run a sequence of calls, each given as (instant, service outcome). -/
def runList (c : CircuitBreaker) (events : List (Int × Option String)) : CircuitBreaker :=
  match events with
  | [] => c
  | e :: es => runList (Call c e.1 e.2).breaker es

/-- Run a sequence of calls, returning the final breaker and the number of times
the protected service was invoked. -/
def runCount (c : CircuitBreaker) (events : List (Int × Option String)) :
    CircuitBreaker × Nat :=
  match events with
  | [] => (c, 0)
  | e :: es =>
      let o := Call c e.1 e.2
      let r := runCount o.breaker es
      (r.1, (if o.invoked then 1 else 0) + r.2)

/-- A breaker state is reachable when it results from some construction followed by
some sequence of calls. -/
def Reachable (c : CircuitBreaker) : Prop :=
  ∃ rl t p rr events, c = runList (NewCircuitBreaker rl t p rr) events

/-- Shared helper: a call on an Open breaker within the timeout is rejected and
changes nothing. -/
theorem Call_open_rejects (c : CircuitBreaker) (now : Int) (svc : Option String)
    (h : c.state = Status.OPEN) (ht : now - c.lastAttemptedAt ≤ c.timeout) :
    Call c now svc = ⟨c, some "CB IS OPEN", false⟩ := by
  have hnot : ¬ now - c.lastAttemptedAt > c.timeout := by omega
  simp [Call, setActualState, getState, h, hnot]

/-- Shared helper: on an Open breaker past the timeout, a call rejects nothing:
the state becomes HalfOpen and the service is invoked. -/
theorem Call_open_timedOut (c : CircuitBreaker) (now : Int) (svc : Option String)
    (h : c.state = Status.OPEN) (ht : now - c.lastAttemptedAt > c.timeout) :
    setActualState c now = { c with state := Status.HALFOPEN } ∧
    (Call c now svc).invoked = true := by
  refine ⟨by simp [setActualState, h, ht], ?_⟩
  simp [Call, setActualState, getState, h, ht]
  cases svc <;> simp

/-- Claim C1 (amended): from any Closed state, one call transitions the breaker to
Open if and only if the failure ratio of the window is at least the threshold
(boundary at `>=`); the check runs lazily at the start of each call, and on the
transition `lastAttemptedAt` is set to that call's time and the call is rejected. -/
theorem c1_closed_open_boundary (c : CircuitBreaker) (now : Int) (svc : Option String)
    (h : c.state = Status.CLOSED) :
    ((Call c now svc).breaker.state = Status.OPEN ↔ failureRatio c ≥ c.percentile) ∧
    (failureRatio c ≥ c.percentile →
      (Call c now svc).breaker = { c with state := Status.OPEN, lastAttemptedAt := now } ∧
      (Call c now svc).invoked = false) := by
  by_cases hr : failureRatio c ≥ c.percentile
  · constructor
    · simp [Call, setActualState, getState, h, hr]
    · intro _
      constructor <;> simp [Call, setActualState, getState, h, hr]
  · have : ¬ (Call c now svc).breaker.state = Status.OPEN := by
      cases svc <;> simp [Call, setActualState, getState, onSuccess, onError, h, hr]
    constructor
    · simp [this, hr]
    · intro hr2
      exact absurd hr2 hr


/-- Claim C1 counterexample: with recordLength 1 and threshold 1, one failing call
completes and makes the window's failure ratio reach the threshold, yet the state
after that completed call is still Closed — the Closed-to-Open evaluation did not
happen after the completed call; it only fires at the start of the next call. -/
theorem c1_counterexample :
    failureRatio (Call (NewCircuitBreaker 1 100 1 1) 0 (some "err")).breaker ≥
      (Call (NewCircuitBreaker 1 100 1 1) 0 (some "err")).breaker.percentile ∧
    (Call (NewCircuitBreaker 1 100 1 1) 0 (some "err")).breaker.state = Status.CLOSED := by
  decide

/-- Witness for c1_closed_open_boundary at a concrete Closed breaker whose ratio
meets the threshold. -/
theorem c1_witness :
    ((Call (Call (NewCircuitBreaker 1 100 1 1) 0 (some "err")).breaker 7 none).breaker.state
        = Status.OPEN ↔
      failureRatio (Call (NewCircuitBreaker 1 100 1 1) 0 (some "err")).breaker ≥
        (Call (NewCircuitBreaker 1 100 1 1) 0 (some "err")).breaker.percentile) ∧
    (failureRatio (Call (NewCircuitBreaker 1 100 1 1) 0 (some "err")).breaker ≥
        (Call (NewCircuitBreaker 1 100 1 1) 0 (some "err")).breaker.percentile →
      (Call (Call (NewCircuitBreaker 1 100 1 1) 0 (some "err")).breaker 7 none).breaker =
        { (Call (NewCircuitBreaker 1 100 1 1) 0 (some "err")).breaker with
            state := Status.OPEN, lastAttemptedAt := 7 } ∧
      (Call (Call (NewCircuitBreaker 1 100 1 1) 0 (some "err")).breaker 7 none).invoked
        = false) :=
  c1_closed_open_boundary (Call (NewCircuitBreaker 1 100 1 1) 0 (some "err")).breaker
    7 none (by decide)

/-- Sequence form for claim C2: any number of calls on an Open breaker, each within
the timeout, leaves the breaker unchanged and invokes the service zero times. -/
theorem runCount_open_zero (c : CircuitBreaker) (h : c.state = Status.OPEN)
    (events : List (Int × Option String))
    (hall : ∀ e ∈ events, e.1 - c.lastAttemptedAt ≤ c.timeout) :
    runCount c events = (c, 0) := by
  induction events with
  | nil => rfl
  | cons e es ih =>
      have h1 : Call c e.1 e.2 = ⟨c, some "CB IS OPEN", false⟩ :=
        Call_open_rejects c e.1 e.2 h (hall e (List.mem_cons_self e es))
      have h2 : runCount c es = (c, 0) := ih fun x hx => hall x (List.mem_cons_of_mem e hx)
      simp [runCount, h1, h2]

/-- Claim C2: while Open and within the timeout, every call returns the rejection
error "CB IS OPEN" without invoking the service, and over any sequence of such
calls the invocation count stays 0 and the breaker is unchanged. -/
theorem c2_open_rejects_all (c : CircuitBreaker) (h : c.state = Status.OPEN)
    (events : List (Int × Option String))
    (hall : ∀ e ∈ events, e.1 - c.lastAttemptedAt ≤ c.timeout) :
    (∀ now svc, now - c.lastAttemptedAt ≤ c.timeout →
      Call c now svc = ⟨c, some "CB IS OPEN", false⟩) ∧
    runCount c events = (c, 0) :=
  ⟨fun now svc ht => Call_open_rejects c now svc h ht,
   runCount_open_zero c h events hall⟩

/-- Witness for c2_open_rejects_all: a concrete Open breaker (reached by opening a
fresh one) rejects two calls within the timeout without invoking the service. -/
theorem c2_witness :
    (∀ now svc,
      now - (runList (NewCircuitBreaker 1 10 0 1) [(5, none)]).lastAttemptedAt ≤
        (runList (NewCircuitBreaker 1 10 0 1) [(5, none)]).timeout →
      Call (runList (NewCircuitBreaker 1 10 0 1) [(5, none)]) now svc =
        ⟨runList (NewCircuitBreaker 1 10 0 1) [(5, none)], some "CB IS OPEN", false⟩) ∧
    runCount (runList (NewCircuitBreaker 1 10 0 1) [(5, none)])
        [(6, none), (15, some "x")] =
      (runList (NewCircuitBreaker 1 10 0 1) [(5, none)], 0) :=
  c2_open_rejects_all (runList (NewCircuitBreaker 1 10 0 1) [(5, none)]) (by decide)
    [(6, none), (15, some "x")] (by decide)

/-- Claim C3: on an Open breaker whose timeout has strictly elapsed, the next call
first transitions to HalfOpen and then invokes the protected operation. -/
theorem c3_open_to_halfopen_probes (c : CircuitBreaker) (now : Int) (svc : Option String)
    (h : c.state = Status.OPEN) (ht : now - c.lastAttemptedAt > c.timeout) :
    (setActualState c now).state = Status.HALFOPEN ∧ (Call c now svc).invoked = true := by
  have h2 := Call_open_timedOut c now svc h ht
  exact ⟨by rw [h2.1], h2.2⟩

/-- Witness for c3_open_to_halfopen_probes at the concrete opened breaker, well
past the timeout. -/
theorem c3_witness :
    (setActualState (runList (NewCircuitBreaker 1 10 0 1) [(5, none)]) 100).state
      = Status.HALFOPEN ∧
    (Call (runList (NewCircuitBreaker 1 10 0 1) [(5, none)]) 100 (some "e")).invoked
      = true :=
  c3_open_to_halfopen_probes (runList (NewCircuitBreaker 1 10 0 1) [(5, none)]) 100
    (some "e") (by decide) (by decide)

/-- Claim C4 counterexample: recordLength 1, threshold 1, recoveryThreshold 1.
Two failing calls open the breaker; past the timeout, two consecutive successful
probe calls run in HalfOpen (successCount reaches 2 = recoveryThreshold + 1), yet
the state after those recoveryThreshold + 1 consecutive successes is still
HalfOpen, not Closed: the close fires only at the start of the next call. -/
theorem c4_counterexample :
    (runList (NewCircuitBreaker 1 10 1 1)
        [(0, some "e"), (1, some "e"), (100, none), (101, none)]).state
      = Status.HALFOPEN ∧
    (runList (NewCircuitBreaker 1 10 1 1)
        [(0, some "e"), (1, some "e"), (100, none), (101, none)]).successCount
      = 2 := by
  decide

/-- Claim C4 (amended): in HalfOpen, a successful call while
successCount ≤ recoveryThreshold keeps the breaker HalfOpen and increments the
counter (so recoveryThreshold + 1 consecutive successes are needed before the
breaker is even eligible to close); once successCount > recoveryThreshold, the
close happens lazily at the start of the next call, and on closing the window is
reset to all-success, the cursor to 0, and the success counter to 0. -/
theorem c4_halfopen_close_lazy (c : CircuitBreaker) (now : Int)
    (h : c.state = Status.HALFOPEN) :
    (c.successCount ≤ c.recoveryRequests →
      (Call c now none).breaker.state = Status.HALFOPEN ∧
      (Call c now none).breaker.successCount = c.successCount + 1) ∧
    (c.successCount > c.recoveryRequests →
      setActualState c now =
        { c with state := Status.CLOSED
                 buffer := List.replicate c.recordLength false
                 pos := 0
                 successCount := 0 }) := by
  constructor
  · intro hc
    have hnot : ¬ c.successCount > c.recoveryRequests := by omega
    simp [Call, setActualState, getState, onSuccess, h, hnot]
  · intro hc
    simp [setActualState, h, hc]

/-- Witness for c4_halfopen_close_lazy at a concrete HalfOpen breaker reached by
opening a fresh breaker and letting the timeout elapse. -/
theorem c4_witness :
    ((runList (NewCircuitBreaker 1 10 1 2) [(0, some "e"), (1, some "e"), (100, none)]).successCount ≤
        (runList (NewCircuitBreaker 1 10 1 2) [(0, some "e"), (1, some "e"), (100, none)]).recoveryRequests →
      (Call (runList (NewCircuitBreaker 1 10 1 2) [(0, some "e"), (1, some "e"), (100, none)]) 101 none).breaker.state
        = Status.HALFOPEN ∧
      (Call (runList (NewCircuitBreaker 1 10 1 2) [(0, some "e"), (1, some "e"), (100, none)]) 101 none).breaker.successCount
        = (runList (NewCircuitBreaker 1 10 1 2) [(0, some "e"), (1, some "e"), (100, none)]).successCount + 1) ∧
    ((runList (NewCircuitBreaker 1 10 1 2) [(0, some "e"), (1, some "e"), (100, none)]).successCount >
        (runList (NewCircuitBreaker 1 10 1 2) [(0, some "e"), (1, some "e"), (100, none)]).recoveryRequests →
      setActualState (runList (NewCircuitBreaker 1 10 1 2) [(0, some "e"), (1, some "e"), (100, none)]) 101 =
        { (runList (NewCircuitBreaker 1 10 1 2) [(0, some "e"), (1, some "e"), (100, none)]) with
            state := Status.CLOSED
            buffer := List.replicate (runList (NewCircuitBreaker 1 10 1 2) [(0, some "e"), (1, some "e"), (100, none)]).recordLength false
            pos := 0
            successCount := 0 }) :=
  c4_halfopen_close_lazy
    (runList (NewCircuitBreaker 1 10 1 2) [(0, some "e"), (1, some "e"), (100, none)])
    101 (by decide)

/-- Claim C5: a call that executes in HalfOpen (successCount still at most
recoveryThreshold, so the lazy close does not fire first) whose operation fails
transitions the breaker back to Open within that same call, sets lastAttemptedAt
to that call's time, and resets successCount to 0. -/
theorem c5_halfopen_failure_reopens (c : CircuitBreaker) (now : Int) (e : String)
    (h : c.state = Status.HALFOPEN) (hc : c.successCount ≤ c.recoveryRequests) :
    (Call c now (some e)).breaker.state = Status.OPEN ∧
    (Call c now (some e)).breaker.lastAttemptedAt = now ∧
    (Call c now (some e)).breaker.successCount = 0 ∧
    (Call c now (some e)).invoked = true := by
  have hnot : ¬ c.successCount > c.recoveryRequests := by omega
  simp [Call, setActualState, getState, onError, h, hnot]

/-- Witness for c5_halfopen_failure_reopens at the concrete HalfOpen breaker. -/
theorem c5_witness :
    (Call (runList (NewCircuitBreaker 1 10 1 2) [(0, some "e"), (1, some "e"), (100, none)]) 101 (some "boom")).breaker.state
      = Status.OPEN ∧
    (Call (runList (NewCircuitBreaker 1 10 1 2) [(0, some "e"), (1, some "e"), (100, none)]) 101 (some "boom")).breaker.lastAttemptedAt
      = 101 ∧
    (Call (runList (NewCircuitBreaker 1 10 1 2) [(0, some "e"), (1, some "e"), (100, none)]) 101 (some "boom")).breaker.successCount
      = 0 ∧
    (Call (runList (NewCircuitBreaker 1 10 1 2) [(0, some "e"), (1, some "e"), (100, none)]) 101 (some "boom")).invoked
      = true :=
  c5_halfopen_failure_reopens
    (runList (NewCircuitBreaker 1 10 1 2) [(0, some "e"), (1, some "e"), (100, none)])
    101 "boom" (by decide) (by decide)

/-- The constructor as claim C6 and the spec describe it — validating
`recordLength > 0` and `0 ≤ failureRatioThreshold ≤ 1`, producing no breaker
(`none`, the `ConfigError` case) when validation fails.  This definition follows
the spec's words and exists only to compare with the source's `NewCircuitBreaker`,
which performs no validation at all. -/
def NewCircuitBreakerValidating (recordLength : Nat) (timeout : Int) (percentile : ℚ)
    (recoveryRequests : Nat) : Option CircuitBreaker :=
  if 0 < recordLength ∧ 0 ≤ percentile ∧ percentile ≤ 1 then
    some (NewCircuitBreaker recordLength timeout percentile recoveryRequests)
  else none

/-- Claim C6 counterexample: with recordLength = 0 and threshold 2 — invalid on
both counts, so the claimed constructor produces no breaker — the source's
`NewCircuitBreaker` nevertheless returns a breaker, in state Closed with an empty
window: the code performs no validation and has no ConfigError. -/
theorem c6_counterexample :
    NewCircuitBreakerValidating 0 5 2 1 = none ∧
    NewCircuitBreaker 0 5 2 1 =
      { state := Status.CLOSED, recordLength := 0, timeout := 5, lastAttemptedAt := 0,
        percentile := 2, buffer := [], pos := 0, recoveryRequests := 1,
        successCount := 0 } := by
  constructor
  · simp [NewCircuitBreakerValidating]
  · rfl

/-- Claim C6 (amended): `NewCircuitBreaker` performs no validation and never
fails — for every input, valid or not, it returns a breaker in state Closed with
a window of recordLength successes (so failure count 0), cursor 0, and
halfOpenSuccessCount 0. -/
theorem c6_new_no_validation (rl : Nat) (t : Int) (p : ℚ) (rr : Nat) :
    (NewCircuitBreaker rl t p rr).state = Status.CLOSED ∧
    (NewCircuitBreaker rl t p rr).buffer = List.replicate rl false ∧
    (NewCircuitBreaker rl t p rr).buffer.length = rl ∧
    failureCount (NewCircuitBreaker rl t p rr).buffer = 0 ∧
    (NewCircuitBreaker rl t p rr).pos = 0 ∧
    (NewCircuitBreaker rl t p rr).successCount = 0 := by
  refine ⟨rfl, rfl, by simp [NewCircuitBreaker], ?_, rfl, rfl⟩
  simp [NewCircuitBreaker, failureCount, List.filter_replicate]

/-- Claim C7 counterexample: take the operation that itself fails with the error
message "CB IS OPEN".  Called on an Open breaker within the timeout it is
rejected (never invoked); called on a fresh Closed breaker it runs and fails.
Both calls return exactly the same value, so the caller cannot decide from the
returned value alone whether the operation was attempted. -/
theorem c7_counterexample :
    (Call (runList (NewCircuitBreaker 1 10 1 1) [(0, some "CB IS OPEN"), (1, some "x")])
        5 (some "CB IS OPEN")).result
      = (Call (NewCircuitBreaker 1 10 1 1) 5 (some "CB IS OPEN")).result ∧
    (Call (runList (NewCircuitBreaker 1 10 1 1) [(0, some "CB IS OPEN"), (1, some "x")])
        5 (some "CB IS OPEN")).invoked = false ∧
    (Call (NewCircuitBreaker 1 10 1 1) 5 (some "CB IS OPEN")).invoked = true := by
  decide

/-- Claim C7 (amended): rejection is reported as a plain error with the fixed
message "CB IS OPEN" while an executed operation's outcome is passed through
unchanged, so a caller can tell rejection apart from an operation failure exactly
when the operation never itself produces an error with that same message. -/
theorem c7_rejection_distinct_iff (c : CircuitBreaker) (now : Int) (svc : Option String)
    (hsvc : svc ≠ some "CB IS OPEN") :
    ((Call c now svc).result = some "CB IS OPEN" ↔ (Call c now svc).invoked = false) ∧
    ((Call c now svc).invoked = true → (Call c now svc).result = svc) := by
  cases svc with
  | none =>
      by_cases hop : getState (setActualState c now) = Status.OPEN <;>
        simp [Call, hop]
  | some e =>
      have he : e ≠ "CB IS OPEN" := fun h => hsvc (by rw [h])
      by_cases hop : getState (setActualState c now) = Status.OPEN <;>
        simp [Call, hop, he]

/-- Witness for c7_rejection_distinct_iff on a fresh breaker and an operation
failing with a message other than "CB IS OPEN". -/
theorem c7_witness :
    ((Call (NewCircuitBreaker 1 10 1 1) 0 (some "boom")).result = some "CB IS OPEN" ↔
      (Call (NewCircuitBreaker 1 10 1 1) 0 (some "boom")).invoked = false) ∧
    ((Call (NewCircuitBreaker 1 10 1 1) 0 (some "boom")).invoked = true →
      (Call (NewCircuitBreaker 1 10 1 1) 0 (some "boom")).result = some "boom") :=
  c7_rejection_distinct_iff (NewCircuitBreaker 1 10 1 1) 0 (some "boom") (by decide)

/-- The success counter is 0 whenever the breaker is not in HalfOpen. -/
def CountInv (c : CircuitBreaker) : Prop :=
  c.state ≠ Status.HALFOPEN → c.successCount = 0

theorem countInv_setActualState (c : CircuitBreaker) (now : Int) (h : CountInv c) :
    CountInv (setActualState c now) := by
  unfold CountInv at h ⊢
  unfold setActualState
  cases hst : c.state with
  | CLOSED =>
      have h0 : c.successCount = 0 := h (by simp [hst])
      by_cases hr : failureRatio c ≥ c.percentile <;> simp [hst, hr, h0]
  | OPEN =>
      have h0 : c.successCount = 0 := h (by simp [hst])
      by_cases ht : now - c.lastAttemptedAt > c.timeout <;> simp [hst, ht, h0]
  | HALFOPEN =>
      by_cases hc : c.successCount > c.recoveryRequests <;> simp [hst, hc]

theorem countInv_onSuccess (c : CircuitBreaker) (h : CountInv c) :
    CountInv (onSuccess c) := by
  unfold CountInv at h ⊢
  unfold onSuccess
  by_cases hst : c.state = Status.HALFOPEN <;> simp [hst]
  exact h hst

theorem countInv_onError (c : CircuitBreaker) (now : Int) :
    CountInv (onError c now) :=
  fun _ => rfl

theorem countInv_Call (c : CircuitBreaker) (now : Int) (svc : Option String)
    (h : CountInv c) : CountInv (Call c now svc).breaker := by
  have h1 := countInv_setActualState c now h
  by_cases hop : getState (setActualState c now) = Status.OPEN
  · simpa [Call, hop] using h1
  · cases svc with
    | none =>
        simpa [Call, hop] using countInv_onSuccess _ h1
    | some e =>
        simpa [Call, hop] using countInv_onError (setActualState c now) now

theorem countInv_runList (c : CircuitBreaker) (events : List (Int × Option String))
    (h : CountInv c) : CountInv (runList c events) := by
  induction events generalizing c with
  | nil => exact h
  | cons e es ih => exact ih _ (countInv_Call c e.1 e.2 h)

theorem countInv_reachable (c : CircuitBreaker) (h : Reachable c) : CountInv c := by
  obtain ⟨rl, t, p, rr, events, rfl⟩ := h
  exact countInv_runList _ events fun _ => rfl

/-- Claim C8: in every reachable Open state the success counter is already 0, so
when the Open-to-HalfOpen transition fires, HalfOpen is entered with
halfOpenSuccessCount equal to 0 — consecutive-probe counting starts from zero. -/
theorem c8_halfopen_entered_zero (c : CircuitBreaker) (now : Int)
    (h : Reachable c) (hst : c.state = Status.OPEN)
    (ht : now - c.lastAttemptedAt > c.timeout) :
    (setActualState c now).state = Status.HALFOPEN ∧
    (setActualState c now).successCount = 0 := by
  have h0 : c.successCount = 0 := countInv_reachable c h (by simp [hst])
  constructor <;> simp [setActualState, hst, ht, h0]

/-- Witness for c8_halfopen_entered_zero at a concretely reached Open breaker. -/
theorem c8_witness :
    (setActualState (runList (NewCircuitBreaker 1 10 0 1) [(5, none)]) 100).state
      = Status.HALFOPEN ∧
    (setActualState (runList (NewCircuitBreaker 1 10 0 1) [(5, none)]) 100).successCount
      = 0 :=
  c8_halfopen_entered_zero (runList (NewCircuitBreaker 1 10 0 1) [(5, none)]) 100
    ⟨1, 10, 0, 1, [(5, none)], rfl⟩ (by decide) (by decide)

/-- Claim C9 counterexample: a Closed breaker whose window already meets the
threshold (recordLength 1, one recorded failure, threshold 1).  The next call is
rejected — the service is not invoked — yet that same call changes the breaker:
lastAttemptedAt moves from 0 to 50 (and the state flips to Open), because the
rejecting call itself performs the lazy Closed-to-Open transition. -/
theorem c9_counterexample :
    (Call (runList (NewCircuitBreaker 1 10 1 1) [(0, some "boom")]) 50 none).invoked
      = false ∧
    (runList (NewCircuitBreaker 1 10 1 1) [(0, some "boom")]).lastAttemptedAt = 0 ∧
    (Call (runList (NewCircuitBreaker 1 10 1 1) [(0, some "boom")]) 50 none).breaker.lastAttemptedAt
      = 50 := by
  decide

/-- Claim C9 (amended): a rejected call never touches the window, the cursor, or
the success counter, and records no outcome; if the breaker was already Open the
whole state is unchanged, while a rejecting call that finds the breaker Closed
(ratio at threshold) is the lazy Closed-to-Open transition itself: it sets the
state to Open and lastAttemptedAt to the call's time. -/
theorem c9_rejected_frame (c : CircuitBreaker) (now : Int) (svc : Option String)
    (h : (Call c now svc).invoked = false) :
    (Call c now svc).breaker.buffer = c.buffer ∧
    (Call c now svc).breaker.pos = c.pos ∧
    (Call c now svc).breaker.successCount = c.successCount ∧
    (c.state = Status.OPEN → (Call c now svc).breaker = c) ∧
    (c.state = Status.CLOSED →
      (Call c now svc).breaker = { c with state := Status.OPEN, lastAttemptedAt := now }) := by
  have hop : getState (setActualState c now) = Status.OPEN := by
    by_contra hop
    cases svc <;> simp [Call, hop] at h
  have hbr : (Call c now svc).breaker = setActualState c now := by
    simp [Call, hop]
  cases hst : c.state with
  | CLOSED =>
      by_cases hr : failureRatio c ≥ c.percentile
      · have hc : setActualState c now =
            { c with state := Status.OPEN, lastAttemptedAt := now } := by
          simp [setActualState, hst, hr]
        rw [hbr, hc]
        simp [hst]
      · exfalso
        have h2 := hop
        simp [getState, setActualState, hst, hr] at h2
  | OPEN =>
      by_cases ht : now - c.lastAttemptedAt > c.timeout
      · exfalso
        have h2 := hop
        simp [getState, setActualState, hst, ht] at h2
      · have hc : setActualState c now = c := by simp [setActualState, hst, ht]
        rw [hbr, hc]
        simp [hst]
  | HALFOPEN =>
      exfalso
      have h2 := hop
      by_cases hcnt : c.successCount > c.recoveryRequests <;>
        simp [getState, setActualState, hst, hcnt] at h2

/-- Witness for c9_rejected_frame at the concrete rejecting Closed-to-Open call. -/
theorem c9_witness :
    (Call (runList (NewCircuitBreaker 1 10 1 1) [(0, some "boom")]) 50 none).breaker.buffer
      = (runList (NewCircuitBreaker 1 10 1 1) [(0, some "boom")]).buffer ∧
    (Call (runList (NewCircuitBreaker 1 10 1 1) [(0, some "boom")]) 50 none).breaker.pos
      = (runList (NewCircuitBreaker 1 10 1 1) [(0, some "boom")]).pos ∧
    (Call (runList (NewCircuitBreaker 1 10 1 1) [(0, some "boom")]) 50 none).breaker.successCount
      = (runList (NewCircuitBreaker 1 10 1 1) [(0, some "boom")]).successCount ∧
    ((runList (NewCircuitBreaker 1 10 1 1) [(0, some "boom")]).state = Status.OPEN →
      (Call (runList (NewCircuitBreaker 1 10 1 1) [(0, some "boom")]) 50 none).breaker
        = runList (NewCircuitBreaker 1 10 1 1) [(0, some "boom")]) ∧
    ((runList (NewCircuitBreaker 1 10 1 1) [(0, some "boom")]).state = Status.CLOSED →
      (Call (runList (NewCircuitBreaker 1 10 1 1) [(0, some "boom")]) 50 none).breaker
        = { runList (NewCircuitBreaker 1 10 1 1) [(0, some "boom")] with
              state := Status.OPEN, lastAttemptedAt := 50 }) :=
  c9_rejected_frame (runList (NewCircuitBreaker 1 10 1 1) [(0, some "boom")]) 50 none
    (by decide)
